import Mathlib

/-!
# Verification of the Cortana traffic-dashboard front end

Shallow embedding of the data-handling parts of the repository:

* the Supabase realtime `road_segments` handlers in
  `client/components/traffic-lights-map.tsx` (viz_color variant) and
  `client/app/traffic/page.tsx` (traffic_level variant);
* the paginated `fetchInitialSupabaseData` loop shared by both map pages;
* the GeoJSON feature-id re-keying (`processedFeatures`) in both map pages;
* the dispatch page (`/vehicles` GET, `/report/incident` POST form handler);
* the mocked AI reasoning panel and the emergency trigger timer;
* the `CityMap` vehicle movement step;
* `fetchColorMatchExpr` (the de-duplicated mapbox match expression).

JavaScript numbers are modelled by `Int` (for integral ids and levels) and
`Rat` (for fractional coordinates); NaN is modelled by `Option.none`.
String→number conversion is modelled for decimal integer / decimal fraction
literals, which covers every value the code can meet in these tables
(osmids and traffic levels are integral, coordinates decimal).
-/

namespace Cortana

/-- A JavaScript value as it can occur in a realtime payload row:
`undefined`, `null`, a number, or a string.  Numbers are restricted to the
integral values that occur in the `road_segments` table. -/
inductive JsVal : Type
  | vundef : JsVal
  | vnull : JsVal
  | vnum : Int → JsVal
  | vstr : String → JsVal
  deriving DecidableEq, Repr

/-- Whitespace characters skipped by JavaScript's number conversions. -/
def isJsSpace (c : Char) : Bool :=
  c = ' ' || c = '\t' || c = '\n' || c = '\r'

/-- Strip leading and trailing whitespace from a character list. -/
def trimChars (cs : List Char) : List Char :=
  ((cs.dropWhile isJsSpace).reverse.dropWhile isJsSpace).reverse

/-- Value of a list of decimal digit characters. -/
def digitsToNat (cs : List Char) : Nat :=
  cs.foldl (fun acc c => acc * 10 + (c.toNat - 48)) 0

/-- JavaScript `Number(s)` on a string, restricted to optionally signed
decimal integer literals: the trimmed empty string converts to `0`, a
trimmed string of digits (with optional sign) converts to its value, and
anything else is NaN (`none`). -/
def jsNumberOfString (s : String) : Option Int :=
  let t := trimChars s.toList
  if t.isEmpty then some 0
  else
    let (sign, rest) :=
      match t with
      | '-' :: r => ((-1 : Int), r)
      | '+' :: r => ((1 : Int), r)
      | r => ((1 : Int), r)
    if rest.isEmpty then none
    else if rest.all Char.isDigit then some (sign * digitsToNat rest)
    else none

/-- JavaScript `Number(v)`: `undefined ↦ NaN`, `null ↦ 0`, numbers are
themselves, strings are converted by `jsNumberOfString`. -/
def jsNumber : JsVal → Option Int
  | JsVal.vundef => none
  | JsVal.vnull => some 0
  | JsVal.vnum n => some n
  | JsVal.vstr s => jsNumberOfString s

/-- JavaScript `parseInt(s, 10)`: skip whitespace, optional sign, then the
longest prefix of decimal digits; NaN (`none`) when that prefix is empty. -/
def parseInt10 (s : String) : Option Int :=
  let t := trimChars s.toList
  let (sign, rest) :=
    match t with
    | '-' :: r => ((-1 : Int), r)
    | '+' :: r => ((1 : Int), r)
    | r => ((1 : Int), r)
  let digits := rest.takeWhile Char.isDigit
  if digits.isEmpty then none else some (sign * digitsToNat digits)

/-- JavaScript `a ?? b`: `b` exactly when `a` is `null` or `undefined`. -/
def jsCoalesce (v d : JsVal) : JsVal :=
  match v with
  | JsVal.vundef => d
  | JsVal.vnull => d
  | _ => v

/-! ## C1: the realtime `road_segments` subscription handlers

A realtime payload's `new` row.  A field is `none` when the key is absent
from the row object (so that the JavaScript `"k" in row` test fails), and
`some v` when the key is present with value `v` (`v = JsVal.vundef` for a
present-but-undefined value). -/

structure RealtimeRow : Type where
  osmid : Option JsVal
  viz_color : Option JsVal
  traffic_level : Option JsVal
  deriving DecidableEq, Repr

/-- Field access `row.k` in JavaScript: `undefined` when the key is absent. -/
def RealtimeRow.getField (f : Option JsVal) : JsVal :=
  f.getD JsVal.vundef

/-- The `postgres_changes` handler of `traffic-lights-map.tsx` (viz_color
variant), assuming `mapRef.current` and `isMapLoadedRef.current` hold (the
claim is conditioned on the map being loaded).  The result is the single
`setFeatureState` call performed on source `"traffic_edges"` — the feature
id together with the stored `viz_color` state — or `none` when the handler
returns without touching feature state.  The handler requires
`"osmid" in updatedSegment && "viz_color" in updatedSegment`, computes
`Number(segment.osmid)` and `updatedSegment.viz_color ?? "unknown"`, and
only updates when the id is not NaN. -/
def handleRealtimeColor (payloadNew : Option RealtimeRow) : Option (Int × JsVal) :=
  match payloadNew with
  | none => none
  | some row =>
    if row.osmid.isSome && row.viz_color.isSome then
      let newColorState := jsCoalesce (RealtimeRow.getField row.viz_color) (JsVal.vstr "unknown")
      match jsNumber (RealtimeRow.getField row.osmid) with
      | some featureId => some (featureId, newColorState)
      | none => none
    else none

/-- The `postgres_changes` handler of `traffic/page.tsx` (traffic_level
variant), assuming the map is loaded.  No key-presence test: it computes
`Number(updatedSegment.osmid)` and
`Number(updatedSegment.traffic_level ?? -1)` directly and updates feature
state whenever the id is not NaN (the stored level may itself be NaN). -/
def handleRealtimeLevel (payloadNew : Option RealtimeRow) : Option (Int × Option Int) :=
  match payloadNew with
  | none => none
  | some row =>
    let newLevel := jsNumber (jsCoalesce (RealtimeRow.getField row.traffic_level) (JsVal.vnum (-1)))
    match jsNumber (RealtimeRow.getField row.osmid) with
    | some featureId => some (featureId, newLevel)
    | none => none

/-- Applying a sequence of delivered notifications one by one, in delivery
order: the list of `setFeatureState` calls emitted by the viz_color
handler. -/
def applyNotificationsColor : List (Option RealtimeRow) → List (Int × JsVal)
  | [] => []
  | p :: rest =>
    match handleRealtimeColor p with
    | some c => c :: applyNotificationsColor rest
    | none => applyNotificationsColor rest

/-- Applying a sequence of delivered notifications one by one for the
traffic_level handler. -/
def applyNotificationsLevel : List (Option RealtimeRow) → List (Int × Option Int)
  | [] => []
  | p :: rest =>
    match handleRealtimeLevel p with
    | some c => c :: applyNotificationsLevel rest
    | none => applyNotificationsLevel rest

/-- Claim C1, counterexample: a payload whose new row is `{ osmid: 5 }` —
the osmid converts to the number `5` (not NaN) — yet the viz_color handler
of `traffic-lights-map.tsx` performs no `setFeatureState` call at all,
because the row lacks the `viz_color` key and the handler's
`"viz_color" in updatedSegment` guard fails; the claim demands the state
of feature `5` be set to the default `"unknown"`. -/
theorem C1_counterexample :
    jsNumber (RealtimeRow.getField (RealtimeRow.mk (some (JsVal.vnum 5)) none none).osmid)
        = some 5 ∧
    handleRealtimeColor (some (RealtimeRow.mk (some (JsVal.vnum 5)) none none)) = none := by
  constructor
  · rfl
  · rfl

/-- Claim C1 as amended: while the map is loaded, the viz_color handler
sets feature `Number(osmid)` on source `traffic_edges` to
`viz_color ?? "unknown"` only when both the `osmid` and `viz_color` keys
are present in the payload's new row and `Number(osmid)` is not NaN; a row
without the `viz_color` key (or with a NaN osmid) changes no feature
state.  The traffic_level handler sets feature `Number(osmid)` to
`Number(traffic_level ?? -1)` whenever `Number(osmid)` is not NaN, and
changes nothing otherwise.  Notifications are applied one by one in
delivery order with no deduplication and no retry: the calls emitted for a
concatenation of deliveries are the concatenation of the calls. -/
theorem C1_realtime_handler :
    (∀ (row : RealtimeRow) (v c : JsVal) (fid : Int),
        row.osmid = some v → row.viz_color = some c → jsNumber v = some fid →
        handleRealtimeColor (some row)
          = some (fid, jsCoalesce c (JsVal.vstr "unknown"))) ∧
    (∀ row : RealtimeRow, jsNumber (RealtimeRow.getField row.osmid) = none →
        handleRealtimeColor (some row) = none) ∧
    (∀ row : RealtimeRow, row.viz_color = none →
        handleRealtimeColor (some row) = none) ∧
    (∀ (row : RealtimeRow) (fid : Int),
        jsNumber (RealtimeRow.getField row.osmid) = some fid →
        handleRealtimeLevel (some row)
          = some (fid, jsNumber (jsCoalesce (RealtimeRow.getField row.traffic_level)
              (JsVal.vnum (-1))))) ∧
    (∀ row : RealtimeRow, jsNumber (RealtimeRow.getField row.osmid) = none →
        handleRealtimeLevel (some row) = none) ∧
    (∀ ps qs : List (Option RealtimeRow),
        applyNotificationsColor (ps ++ qs)
          = applyNotificationsColor ps ++ applyNotificationsColor qs) ∧
    (∀ ps qs : List (Option RealtimeRow),
        applyNotificationsLevel (ps ++ qs)
          = applyNotificationsLevel ps ++ applyNotificationsLevel qs) := by
  refine ⟨?_, ?_, ?_, ?_, ?_, ?_, ?_⟩
  · intro row v c fid h1 h2 h3
    simp [handleRealtimeColor, h1, h2, RealtimeRow.getField, h3]
  · intro row h
    simp only [handleRealtimeColor]
    split
    · rw [h]
    · rfl
  · intro row h
    simp [handleRealtimeColor, h]
  · intro row fid h
    simp only [handleRealtimeLevel]
    rw [h]
  · intro row h
    simp only [handleRealtimeLevel]
    rw [h]
  · intro ps qs
    induction ps with
    | nil => rfl
    | cons p rest ih =>
      simp only [List.cons_append, applyNotificationsColor]
      cases handleRealtimeColor p <;> simp [ih]
  · intro ps qs
    induction ps with
    | nil => rfl
    | cons p rest ih =>
      simp only [List.cons_append, applyNotificationsLevel]
      cases handleRealtimeLevel p <;> simp [ih]

/-- Claim C1 witness: concrete payloads run through the amended theorem —
a row with a null `viz_color` gets the `"unknown"` default, and a row with
a null `traffic_level` gets `-1`. -/
theorem C1_realtime_handler_witness :
    handleRealtimeColor (some (RealtimeRow.mk (some (JsVal.vnum 7)) (some JsVal.vnull) none))
        = some (7, JsVal.vstr "unknown") ∧
    handleRealtimeLevel (some (RealtimeRow.mk (some (JsVal.vnum 7)) none (some JsVal.vnull)))
        = some (7, some (-1)) :=
  ⟨C1_realtime_handler.1 (RealtimeRow.mk (some (JsVal.vnum 7)) (some JsVal.vnull) none)
      (JsVal.vnum 7) JsVal.vnull 7 rfl rfl rfl,
   C1_realtime_handler.2.2.2.1 (RealtimeRow.mk (some (JsVal.vnum 7)) none (some JsVal.vnull))
      7 rfl⟩

/-! ## C2: `fetchInitialSupabaseData` pagination

Both map pages page through `road_segments` with
`.order("id", { ascending: true }).range(from, from + pageSize - 1)`.
`rows` below stands for the full table contents in the id-ascending order
the query requests; `failAt = some k` makes the request for page `k`
report an error (the loop `throw`s and the catch returns `[]`). -/

/-- Supabase page size used by the loop. -/
def pageSize : Nat := 1000

/-- The backend's answer to `.range(pageSize*page, pageSize*page + pageSize - 1)`:
the corresponding slice of the ordered table, or an error for page `failAt`. -/
def fetchPage {α : Type} (rows : List α) (failAt : Option Nat) (page : Nat) :
    Except Unit (List α) :=
  if failAt = some page then Except.error ()
  else Except.ok ((rows.drop (pageSize * page)).take pageSize)

/-- The `do … while (got === pageSize)` loop: accumulate pages, stop after
the first page shorter than `pageSize`, return `[]` from the catch when a
page request errors.  `fuel` bounds the recursion; the top-level entry
point passes enough fuel that it is never exhausted. -/
def fetchLoop {α : Type} (rows : List α) (failAt : Option Nat) :
    Nat → Nat → List α → List α
  | 0, _, acc => acc
  | fuel + 1, page, acc =>
    match fetchPage rows failAt page with
    | Except.error _ => []
    | Except.ok data =>
      if data.length = pageSize then fetchLoop rows failAt fuel (page + 1) (acc ++ data)
      else acc ++ data

/-- Function `fetchInitialSupabaseData` of `traffic-lights-map.tsx` /
`traffic/page.tsx`: run the paging loop from page 0 with an empty
accumulator. -/
def fetchInitialSupabaseData {α : Type} (rows : List α) (failAt : Option Nat) : List α :=
  fetchLoop rows failAt (rows.length / pageSize + 1) 0 []

lemma fetchPage_none {α : Type} (rows : List α) (page : Nat) :
    fetchPage rows none page
      = Except.ok ((rows.drop (pageSize * page)).take pageSize) := by
  simp [fetchPage]

lemma fetchPage_fail_ne {α : Type} (rows : List α) (k page : Nat) (h : page ≠ k) :
    fetchPage rows (some k) page
      = Except.ok ((rows.drop (pageSize * page)).take pageSize) := by
  simp only [fetchPage, Option.some.injEq]
  rw [if_neg (by omega)]

lemma fetchLoop_ok {α : Type} (rows : List α) :
    ∀ (fuel page : Nat) (acc : List α),
      rows.length - pageSize * page ≤ pageSize * fuel →
      fetchLoop rows none fuel page acc = acc ++ rows.drop (pageSize * page) := by
  intro fuel
  induction fuel with
  | zero =>
    intro page acc h
    have hle : rows.length ≤ pageSize * page := by omega
    rw [List.drop_eq_nil_of_le hle]
    simp [fetchLoop]
  | succ fuel ih =>
    intro page acc h
    simp only [fetchLoop, fetchPage_none]
    have hlen : ((rows.drop (pageSize * page)).take pageSize).length
        = min pageSize (rows.drop (pageSize * page)).length := by
      simp [List.length_take]
    by_cases hfull : ((rows.drop (pageSize * page)).take pageSize).length = pageSize
    · rw [if_pos hfull]
      have hrec := ih (page + 1) (acc ++ (rows.drop (pageSize * page)).take pageSize) (by
        have e1 : pageSize * (page + 1) = pageSize * page + pageSize := by ring
        have e2 : pageSize * (fuel + 1) = pageSize * fuel + pageSize := by ring
        omega)
      rw [hrec]
      rw [List.append_assoc]
      congr 1
      have hdd : (rows.drop (pageSize * page)).drop pageSize = rows.drop (pageSize * (page + 1)) := by
        rw [List.drop_drop]
        have e3 : pageSize * page + pageSize = pageSize * (page + 1) := by ring
        rw [e3]
      calc (rows.drop (pageSize * page)).take pageSize ++ rows.drop (pageSize * (page + 1))
          = (rows.drop (pageSize * page)).take pageSize
              ++ (rows.drop (pageSize * page)).drop pageSize := by rw [hdd]
        _ = rows.drop (pageSize * page) := List.take_append_drop _ _
    · rw [if_neg hfull]
      congr 1
      have hshort : (rows.drop (pageSize * page)).length ≤ pageSize := by
        rw [hlen] at hfull
        omega
      exact List.take_of_length_le hshort

lemma fetchLoop_error {α : Type} (rows : List α) (k : Nat)
    (hk : pageSize * k ≤ rows.length) :
    ∀ (fuel page : Nat) (acc : List α),
      page ≤ k → k < page + fuel →
      fetchLoop rows (some k) fuel page acc = [] := by
  intro fuel
  induction fuel with
  | zero =>
    intro page acc hpk hlt
    omega
  | succ fuel ih =>
    intro page acc hpk hlt
    by_cases hpage : page = k
    · subst hpage
      simp [fetchLoop, fetchPage]
    · have hplt : page < k := lt_of_le_of_ne hpk hpage
      simp only [fetchLoop, fetchPage_fail_ne rows k page hpage]
      have hfull : ((rows.drop (pageSize * page)).take pageSize).length = pageSize := by
        have h1 : pageSize * (page + 1) ≤ pageSize * k :=
          Nat.mul_le_mul_left _ (by omega)
        have h2 : pageSize * (page + 1) = pageSize * page + pageSize := by ring
        have hrem : pageSize ≤ (rows.drop (pageSize * page)).length := by
          rw [List.length_drop]
          omega
        simp only [List.length_take]
        omega
      rw [if_pos hfull]
      exact ih (page + 1) _ (by omega) (by omega)

/-- Claim C2: with no request failure, the pagination loop returns exactly
the ordered table contents — the concatenation of all `pageSize`-slices in
fetch order, stopping after the first short page; if the request for any
page that the loop actually issues fails (page `k` is issued whenever the
preceding `k` pages are full, i.e. `pageSize * k ≤ rows.length`), the
function returns `[]`, discarding every row fetched from earlier pages. -/
theorem C2_fetchInitialSupabaseData {α : Type} (rows : List α) :
    fetchInitialSupabaseData rows none = rows ∧
    (∀ k : Nat, pageSize * k ≤ rows.length →
      fetchInitialSupabaseData rows (some k) = []) := by
  constructor
  · unfold fetchInitialSupabaseData
    rw [fetchLoop_ok rows _ 0 [] (by
      have h := Nat.div_add_mod rows.length pageSize
      have hm : rows.length % pageSize < pageSize :=
        Nat.mod_lt _ (by norm_num [pageSize])
      have h2 : pageSize * (rows.length / pageSize + 1)
          = pageSize * (rows.length / pageSize) + pageSize := by ring
      omega)]
    simp
  · intro k hk
    unfold fetchInitialSupabaseData
    refine fetchLoop_error rows k hk _ 0 [] (Nat.zero_le _) ?_
    have hkle : k ≤ rows.length / pageSize :=
      (Nat.le_div_iff_mul_le (by norm_num [pageSize])).mpr
        (by rw [Nat.mul_comm]; exact hk)
    omega

/-- Claim C2 witness: a three-row table is fetched whole in one short
page, and a failure on page 0 of the same table discards everything. -/
theorem C2_fetchInitialSupabaseData_witness :
    fetchInitialSupabaseData [10, 20, 30] none = [10, 20, 30] ∧
    fetchInitialSupabaseData [(10 : Nat), 20, 30] (some 0) = [] :=
  ⟨(C2_fetchInitialSupabaseData [10, 20, 30]).1,
   (C2_fetchInitialSupabaseData [(10 : Nat), 20, 30]).2 0 (by norm_num [pageSize])⟩

/-! ## C3: GeoJSON feature-id re-keying (`processedFeatures`)

Both map pages fetch `sf_traffic_map.json` and re-key its features: an
array-valued `osmid` property yields one `structuredClone` per element
with `id = parseInt(element, 10)`; a scalar `osmid` becomes the feature's
id (parsed when a string); a feature whose `osmid` is `undefined` or
`null` is pushed unchanged (no id is assigned).  In every branch the
properties are replaced by `baseProperties` — the destructuring
`const { viz_color, ...baseProperties } = originalFeature.properties`
that removes the `viz_color` key. -/

/-- The `osmid` property of a raw GeoJSON feature. -/
inductive OsmProp : Type
  | undef : OsmProp
  | null : OsmProp
  | num : Int → OsmProp
  | str : String → OsmProp
  | arr : List String → OsmProp
  deriving DecidableEq, Repr

/-- A GeoJSON feature, reduced to what the re-keying touches: its `id`
(`none` when the feature carries no id; `some none` for a NaN id;
`some (some n)` for the numeric id `n`), its `osmid` property, its
`viz_color` property (present or absent), and `tag`, a stand-in for the
geometry and remaining properties that cloning preserves. -/
structure GeoFeature : Type where
  id : Option (Option Int)
  osmid : OsmProp
  viz_color : Option JsVal
  tag : Nat
  deriving DecidableEq, Repr

/-- One iteration of the `rawGeojson.features.forEach` body: the features
pushed onto `processedFeatures` for one original feature. -/
def processFeature (f : GeoFeature) : List GeoFeature :=
  match f.osmid with
  | OsmProp.arr l =>
      l.map (fun idStr => { f with id := some (parseInt10 idStr), viz_color := none })
  | OsmProp.num n => [{ f with id := some (some n), viz_color := none }]
  | OsmProp.str s => [{ f with id := some (parseInt10 s), viz_color := none }]
  | OsmProp.undef => [{ f with viz_color := none }]
  | OsmProp.null => [{ f with viz_color := none }]

/-- The full pass over `rawGeojson.features`. -/
def processFeatures (fs : List GeoFeature) : List GeoFeature :=
  fs.flatMap processFeature

/-- Claim C3, counterexample: a raw feature with no `osmid` property (and
no pre-existing id) is kept in the processed collection with no id at
all, so a feature without a numeric id remains. -/
theorem C3_counterexample :
    (processFeatures [GeoFeature.mk none OsmProp.undef none 0]).map GeoFeature.id
      = [none] := by
  rfl

/-- Claim C3 as amended: a feature whose `osmid` is an array is replaced
by one clone per element with id `parseInt(element, 10)` (each clone
keeping the feature's geometry/other properties); a scalar `osmid` becomes
the feature's id (parsed when a string); and every feature in the
processed collection either carries an assigned id or has an absent/null
`osmid` property, in which case it is kept with its original (possibly
missing) id — so features without a numeric id can remain. -/
theorem C3_processedFeatures :
    (∀ (f : GeoFeature) (l : List String), f.osmid = OsmProp.arr l →
        (processFeature f).map GeoFeature.id = l.map (fun s => some (parseInt10 s)) ∧
        (processFeature f).map GeoFeature.tag = l.map (fun _ => f.tag)) ∧
    (∀ (f : GeoFeature) (n : Int), f.osmid = OsmProp.num n →
        (processFeature f).map GeoFeature.id = [some (some n)]) ∧
    (∀ (f : GeoFeature) (s : String), f.osmid = OsmProp.str s →
        (processFeature f).map GeoFeature.id = [some (parseInt10 s)]) ∧
    (∀ f : GeoFeature, f.osmid = OsmProp.undef ∨ f.osmid = OsmProp.null →
        processFeature f = [{ f with viz_color := none }]) ∧
    (∀ (fs : List GeoFeature) (g : GeoFeature), g ∈ processFeatures fs →
        g.id.isSome ∨ g.osmid = OsmProp.undef ∨ g.osmid = OsmProp.null) := by
  refine ⟨?_, ?_, ?_, ?_, ?_⟩
  · intro f l h
    constructor <;> simp [processFeature, h, Function.comp_def]
  · intro f n h
    simp [processFeature, h]
  · intro f s h
    simp [processFeature, h]
  · intro f h
    rcases h with h | h <;> simp [processFeature, h]
  · intro fs g hg
    simp only [processFeatures, List.mem_flatMap] at hg
    obtain ⟨f, -, hf⟩ := hg
    rcases ho : f.osmid with _ | _ | n | s | l <;>
      simp only [processFeature, ho, List.mem_singleton] at hf
    · subst hf
      right; left; rfl
    · subst hf
      right; right; rfl
    · subst hf
      left; rfl
    · subst hf
      left; rfl
    · simp only [List.mem_map] at hf
      obtain ⟨s, -, rfl⟩ := hf
      left; rfl

/-- Claim C3 witness: an array-osmid feature is split into clones with
parsed ids, and a scalar-osmid feature gets its osmid as id. -/
theorem C3_processedFeatures_witness :
    (processFeature (GeoFeature.mk none (OsmProp.arr ["12", "34"]) (some (JsVal.vstr "lime")) 3)).map
        GeoFeature.id = [some (some 12), some (some 34)] ∧
    (processFeature (GeoFeature.mk none (OsmProp.num 99) none 4)).map GeoFeature.id
        = [some (some 99)] := by
  constructor
  · have h := (C3_processedFeatures.1
      (GeoFeature.mk none (OsmProp.arr ["12", "34"]) (some (JsVal.vstr "lime")) 3)
      ["12", "34"] rfl).1
    rw [h]
    decide
  · exact C3_processedFeatures.2.1 (GeoFeature.mk none (OsmProp.num 99) none 4) 99 rfl

/-! ## C4: the dispatch page's HTTP requests

`fetchVehicles` issues `GET ${API_BASE_URL}/vehicles`; `handleDispatch`
parses the two coordinate form fields with `parseFloat`, validates them
(NaN check, then range check), and on success issues one
`POST ${API_BASE_URL}/report/incident` whose JSON body is
`{latitude, longitude}`.  Coordinates are modelled as exact rationals of
their decimal literals. -/

/-- The exponent part following an `e`/`E`: an optional sign and one or
more digits.  When no digit follows (e.g. `2e` or `2e+`), `parseFloat`
does not consume the exponent marker, so the exponent is empty. -/
def parseExpPart (r : List Char) : Bool × List Char :=
  let (eneg, r2) :=
    match r with
    | '-' :: rr => (true, rr)
    | '+' :: rr => (false, rr)
    | rr => (false, rr)
  let ds := r2.takeWhile Char.isDigit
  if ds.isEmpty then (false, []) else (eneg, ds)

/-- The syntactic phase of JavaScript `parseFloat` on an optionally
signed decimal literal with optional fraction and optional `e`/`E`
exponent: the sign, the integer-part and fraction-part digits, and the
exponent sign and digits of the longest such prefix of the trimmed
string, or `none` (NaN) when no significand digit is found. -/
def parseFloatParts (s : String) :
    Option (Bool × List Char × List Char × (Bool × List Char)) :=
  let t := trimChars s.toList
  let (neg, rest) :=
    match t with
    | '-' :: r => (true, r)
    | '+' :: r => (false, r)
    | r => (false, r)
  let intDigits := rest.takeWhile Char.isDigit
  let rest2 := rest.dropWhile Char.isDigit
  let (fracDigits, rest3) :=
    match rest2 with
    | '.' :: r => (r.takeWhile Char.isDigit, r.dropWhile Char.isDigit)
    | r => (([] : List Char), r)
  if intDigits.isEmpty && fracDigits.isEmpty then none
  else
    let expPart :=
      match rest3 with
      | 'e' :: r => parseExpPart r
      | 'E' :: r => parseExpPart r
      | _ => (false, [])
    some (neg, intDigits, fracDigits, expPart)

/-- The value denoted by a parsed
sign/integer-part/fraction-part/exponent. -/
def partsToRat : Bool × List Char × List Char × (Bool × List Char) → Rat
  | (neg, intDigits, fracDigits, (eneg, expDigits)) =>
    let mantissa := (digitsToNat intDigits : Rat)
      + (digitsToNat fracDigits : Rat) / ((10 : Rat) ^ fracDigits.length)
    let scaled :=
      if eneg then mantissa / ((10 : Rat) ^ digitsToNat expDigits)
      else mantissa * ((10 : Rat) ^ digitsToNat expDigits)
    (if neg then (-1 : Rat) else 1) * scaled

/-- JavaScript `parseFloat` on decimal notation, exponent included
(`9e1 ↦ 90`, `1.5e-2 ↦ 0.015`): the value of the longest valid prefix of
the trimmed string, NaN (`none`) when there is none.  Values are exact
rationals rather than IEEE doubles, which agree on the range comparisons
of `handleDispatch` except at inputs whose double rounding crosses a
boundary. -/
def parseFloatJs (s : String) : Option Rat :=
  (parseFloatParts s).map partsToRat

/-- An HTTP request issued by the dispatch page; `body` is the list of
key/value pairs of the JSON body (empty for GET). -/
structure HttpRequest : Type where
  method : String
  url : String
  body : List (String × Rat)
  deriving DecidableEq, Repr

/-- The request issued by `fetchVehicles`. -/
def vehiclesRequest (apiBase : String) : HttpRequest :=
  { method := "GET", url := apiBase ++ "/vehicles", body := [] }

/-- Handler `handleDispatch`: parse both fields with `parseFloat`; if either is
NaN report `Please enter valid numeric coordinates.`; if out of range
report `Coordinates out of valid range.`; otherwise issue the single
incident POST with exactly the two body keys. -/
def handleDispatch (apiBase latitude longitude : String) : Except String HttpRequest :=
  match parseFloatJs latitude, parseFloatJs longitude with
  | some latNum, some lonNum =>
    if latNum < -90 ∨ latNum > 90 ∨ lonNum < -180 ∨ lonNum > 180 then
      Except.error "Coordinates out of valid range."
    else
      Except.ok { method := "POST", url := apiBase ++ "/report/incident",
                  body := [("latitude", latNum), ("longitude", lonNum)] }
  | _, _ => Except.error "Please enter valid numeric coordinates."

/-- Claim C4: the vehicle list comes from `GET ${API_BASE_URL}/vehicles`,
and a form submission whose coordinates parse and lie in range issues
exactly one `POST ${API_BASE_URL}/report/incident` whose body is an
object with exactly the keys `latitude` and `longitude` holding the
parsed values; a submission with an unparsable coordinate issues no
request. -/
theorem C4_dispatch_requests :
    (∀ apiBase : String,
        vehiclesRequest apiBase
          = { method := "GET", url := apiBase ++ "/vehicles", body := [] }) ∧
    (∀ (apiBase latS lonS : String) (la lo : Rat),
        parseFloatJs latS = some la → parseFloatJs lonS = some lo →
        -90 ≤ la → la ≤ 90 → -180 ≤ lo → lo ≤ 180 →
        handleDispatch apiBase latS lonS
          = Except.ok { method := "POST", url := apiBase ++ "/report/incident",
                        body := [("latitude", la), ("longitude", lo)] }) ∧
    (∀ apiBase latS lonS : String,
        parseFloatJs latS = none ∨ parseFloatJs lonS = none →
        handleDispatch apiBase latS lonS
          = Except.error "Please enter valid numeric coordinates.") := by
  refine ⟨fun _ => rfl, ?_, ?_⟩
  · intro apiBase latS lonS la lo h1 h2 h3 h4 h5 h6
    simp only [handleDispatch, h1, h2]
    rw [if_neg]
    push_neg
    exact ⟨h3, h4, h5, h6⟩
  · intro apiBase latS lonS h
    rcases h with h | h
    · cases h2 : parseFloatJs lonS <;> simp [handleDispatch, h, h2]
    · cases h1 : parseFloatJs latS <;> simp [handleDispatch, h, h1]

/-- Claim C4 witness: submitting latitude `37.7`, longitude `-122.4`
posts the incident body `{latitude: 37.7, longitude: -122.4}`, and the
exponent-notation submission latitude `9e1`, longitude `0` posts
`{latitude: 90, longitude: 0}`. -/
theorem C4_dispatch_requests_witness :
    handleDispatch "http://localhost:8000" "37.7" "-122.4"
      = Except.ok { method := "POST", url := "http://localhost:8000/report/incident",
                    body := [("latitude", (377 : Rat) / 10), ("longitude", -(612 : Rat) / 5)] } ∧
    handleDispatch "http://localhost:8000" "9e1" "0"
      = Except.ok { method := "POST", url := "http://localhost:8000/report/incident",
                    body := [("latitude", (90 : Rat)), ("longitude", (0 : Rat))] } := by
  have hlat : parseFloatJs "37.7" = some ((377 : Rat) / 10) := by
    have hp : parseFloatParts "37.7" = some (false, ['3', '7'], ['7'], (false, [])) := by
      decide
    simp only [parseFloatJs, hp, Option.map_some']
    congr 1
    norm_num [partsToRat, show digitsToNat ['3', '7'] = 37 from by decide,
      show digitsToNat ['7'] = 7 from by decide,
      show digitsToNat [] = 0 from by decide]
  have hlon : parseFloatJs "-122.4" = some (-(612 : Rat) / 5) := by
    have hp : parseFloatParts "-122.4" = some (true, ['1', '2', '2'], ['4'], (false, [])) := by
      decide
    simp only [parseFloatJs, hp, Option.map_some']
    congr 1
    norm_num [partsToRat, show digitsToNat ['1', '2', '2'] = 122 from by decide,
      show digitsToNat ['4'] = 4 from by decide,
      show digitsToNat [] = 0 from by decide]
  have hlat9 : parseFloatJs "9e1" = some (90 : Rat) := by
    have hp : parseFloatParts "9e1" = some (false, ['9'], [], (false, ['1'])) := by
      decide
    simp only [parseFloatJs, hp, Option.map_some']
    congr 1
    norm_num [partsToRat, show digitsToNat ['9'] = 9 from by decide,
      show digitsToNat ['1'] = 1 from by decide,
      show digitsToNat [] = 0 from by decide]
  have hlon0 : parseFloatJs "0" = some (0 : Rat) := by
    have hp : parseFloatParts "0" = some (false, ['0'], [], (false, [])) := by
      decide
    simp only [parseFloatJs, hp, Option.map_some']
    congr 1
    norm_num [partsToRat, show digitsToNat ['0'] = 0 from by decide,
      show digitsToNat [] = 0 from by decide]
  exact ⟨C4_dispatch_requests.2.1 "http://localhost:8000" "37.7" "-122.4"
      ((377 : Rat) / 10) (-(612 : Rat) / 5) hlat hlon
      (by norm_num) (by norm_num) (by norm_num) (by norm_num),
    C4_dispatch_requests.2.1 "http://localhost:8000" "9e1" "0"
      (90 : Rat) (0 : Rat) hlat9 hlon0
      (by norm_num) (by norm_num) (by norm_num) (by norm_num)⟩

/-! ## C5: which error paths are user-visible

The dispatch page (the only page with error state) renders two error
channels: the dispatch form's `dispatchError`, and the page-level `error`
set by the `fetchVehicles` catch handler and rendered as
`Error: {error}` in the incident list.  The map components keep no error
state at all — their fetch / subscription / payload error handlers
`console.error` and return early — so their rendered output can only show
the static missing-token fallback. -/

/-- The `catch` branch of `fetchVehicles`:
`setError(`Failed to load vehicles: ${err.message}`)`. -/
def fetchVehiclesFailureMessage (errMsg : String) : String :=
  "Failed to load vehicles: " ++ errMsg

/-- The incident-list area of the dispatch page: it renders
`Error: {error}` exactly when `error` is set and loading has finished. -/
def dispatchListErrorView (isLoading : Bool) (error : Option String) : Option String :=
  if isLoading then none else error.map (fun e => "Error: " ++ e)

/-- The dispatch form renders `dispatchError` verbatim when it is set. -/
def dispatchFormErrorView (dispatchError : Option String) : Option String :=
  dispatchError

/-- What a Mapbox map component (`traffic-lights-map.tsx`,
`traffic/page.tsx`) can render besides the map container.  The components
hold no error state, so the rendered output is a function of the token
check alone; runtime fetch/subscription failures cannot reach it. -/
def mapComponentErrorView (hasToken : Bool) : Option String :=
  if hasToken then none else some "Missing Mapbox token"

/-- Claim C5, counterexample: the vehicles-list fetch failure — a fetch
error path that is not the dispatch form — produces the user-visible
message `Error: Failed to load vehicles: network error` in the incident
list, so the dispatch form is not the only error path surfaced to the
user. -/
theorem C5_counterexample :
    dispatchListErrorView false (some (fetchVehiclesFailureMessage "network error")) ≠ none ∧
    dispatchListErrorView false (some (fetchVehiclesFailureMessage "network error"))
      = some "Error: Failed to load vehicles: network error" := by
  constructor
  · intro h
    cases h
  · rfl

/-- Claim C5 as amended: the dispatch page surfaces errors to the user on
two paths — the dispatch form's own errors and the vehicles-list fetch
failure, rendered as `Error: …` once loading finishes — while the map
components can show nothing but the static missing-token fallback:
whatever happens at runtime, their error display is either empty or that
constant, so their fetch/subscription/payload failures are only logged
and swallowed. -/
theorem C5_error_surfacing :
    (∀ msg : String,
        dispatchListErrorView false (some (fetchVehiclesFailureMessage msg))
          = some ("Error: " ++ ("Failed to load vehicles: " ++ msg))) ∧
    (∀ apiBase latS lonS : String, parseFloatJs latS = none →
        ∃ e : String, handleDispatch apiBase latS lonS = Except.error e ∧
          dispatchFormErrorView (some e) = some e) ∧
    (∀ hasToken : Bool,
        mapComponentErrorView hasToken = none ∨
          mapComponentErrorView hasToken = some "Missing Mapbox token") := by
  refine ⟨fun msg => rfl, ?_, ?_⟩
  · intro apiBase latS lonS h
    refine ⟨"Please enter valid numeric coordinates.", ?_, rfl⟩
    cases h2 : parseFloatJs lonS <;> simp [handleDispatch, h, h2]
  · intro hasToken
    cases hasToken
    · right; rfl
    · left; rfl

/-- Claim C5 witness: a concrete vehicles-fetch failure is rendered, and
a concrete invalid dispatch submission produces a rendered form error. -/
theorem C5_error_surfacing_witness :
    dispatchListErrorView false (some (fetchVehiclesFailureMessage "timeout"))
      = some ("Error: " ++ ("Failed to load vehicles: " ++ "timeout")) ∧
    ∃ e : String, handleDispatch "http://localhost:8000" "abc" "0" = Except.error e ∧
      dispatchFormErrorView (some e) = some e :=
  ⟨C5_error_surfacing.1 "timeout",
   C5_error_surfacing.2.1 "http://localhost:8000" "abc" "0" (by decide)⟩

/-! ## C6: the AI reasoning panel

`AIReasoningPanel`'s effect: when an emergency with a type and a location
is active it sets `isThinking`, clears the step list, and schedules the
11 hard-coded strings on one timer each at strictly increasing delays
(`delay += Math.random() * 1000 + 500` after each), the callback for the
last index also clearing `isThinking`; otherwise it only resets the step
list. -/

/-- The emergency types of the mock dashboard. -/
inductive EmergencyKind : Type
  | fire : EmergencyKind
  | medical : EmergencyKind
  | police : EmergencyKind
  deriving DecidableEq, Repr

/-- The string a type interpolates to. -/
def EmergencyKind.text : EmergencyKind → String
  | EmergencyKind.fire => "fire"
  | EmergencyKind.medical => "medical"
  | EmergencyKind.police => "police"

/-- The component state of `AIReasoningPanel`. -/
structure PanelState : Type where
  reasoningSteps : List String
  isThinking : Bool
  deriving DecidableEq, Repr

/-- The hard-coded reasoning step strings, with the emergency type and
location interpolated into the second. -/
def aiSteps (t : EmergencyKind) (x y : Int) : List String :=
  ["Analyzing current traffic conditions...",
   "Identified emergency: " ++ t.text ++ " at " ++ toString x ++ "th and "
     ++ toString y ++ "th Street.",
   "Calculating optimal route options...",
   "Evaluating traffic density on potential paths...",
   "Route option 1: Via Market Street (ETA: 3m 42s)",
   "Route option 2: Via Pine Street (ETA: 3m 24s)",
   "Selected optimal route: Pine Street",
   "Coordinating traffic light sequence...",
   "Instructing traffic light agents to prioritize north-south flow at intersections 3, 5, and 7",
   "Monitoring real-time traffic flow adjustments...",
   "Route clearance complete. Emergency vehicle ETA: 3m 24s (47% time saved)"]

/-- Synchronous part of the effect body: on an active emergency with type
and location, start thinking with an empty list; otherwise reset the list
(leaving `isThinking` untouched). -/
def panelEffectInit (active : Bool) (ty : Option EmergencyKind)
    (loc : Option (Int × Int)) (st : PanelState) : PanelState :=
  match active, ty, loc with
  | true, some _, some _ => { reasoningSteps := [], isThinking := true }
  | _, _, _ => { st with reasoningSteps := [] }

/-- The timer callback for step index `i`: append the step, and clear
`isThinking` when `i` is the final index. -/
def stepCallback (steps : List String) (i : Nat) (st : PanelState) : PanelState :=
  let st1 := { st with reasoningSteps := st.reasoningSteps ++ [steps.getD i ""] }
  if i = steps.length - 1 then { st1 with isThinking := false } else st1

/-- Running the first `k` step callbacks in index order — the order in
which their strictly increasing timers fire. -/
def runSteps (steps : List String) (k : Nat) (st : PanelState) : PanelState :=
  (List.range k).foldl (fun s i => stepCallback steps i s) st

/-- The delay at which step `i`'s timer is scheduled; `rand i` stands for
the `Math.random()` drawn after scheduling step `i`. -/
def stepDelay (rand : Nat → Rat) : Nat → Rat
  | 0 => 500
  | i + 1 => stepDelay rand i + (rand i * 1000 + 500)

lemma runSteps_succ (steps : List String) (k : Nat) (st : PanelState) :
    runSteps steps (k + 1) st = stepCallback steps k (runSteps steps k st) := by
  simp [runSteps, List.range_succ]

lemma runSteps_spec (steps : List String) (hpos : 0 < steps.length) :
    ∀ k, k ≤ steps.length →
      runSteps steps k (PanelState.mk [] true)
        = PanelState.mk (steps.take k) (if k = steps.length then false else true) := by
  intro k
  induction k with
  | zero =>
    intro _
    rw [if_neg (by omega)]
    rfl
  | succ k ih =>
    intro hk
    have hklt : k < steps.length := by omega
    rw [runSteps_succ, ih (by omega), if_neg (by omega)]
    have hget : steps.getD k "" = steps.get ⟨k, hklt⟩ := by
      rw [List.getD_eq_getElem?_getD, List.getElem?_eq_getElem hklt]
      rfl
    have htake : steps.take k ++ [steps.get ⟨k, hklt⟩] = steps.take (k + 1) := by
      rw [← List.concat_eq_append]
      exact List.take_concat_get steps k hklt
    by_cases hlast : k = steps.length - 1
    · have hlen : k + 1 = steps.length := by omega
      rw [if_pos hlen]
      simp only [stepCallback, hget, if_pos hlast]
      rw [htake]
    · have hlen : k + 1 ≠ steps.length := by omega
      rw [if_neg hlen]
      simp only [stepCallback, hget, if_neg hlast]
      rw [htake]

/-- Claim C6: the step list has exactly 11 hard-coded entries (type and
location interpolated into the second); the scheduled delays are strictly
increasing, so the timers fire in index order; running all 11 callbacks
from an activation leaves exactly the 11 strings in order with
`isThinking` false, while after any earlier prefix `isThinking` is still
true; and when no emergency (or no type/location) is active the effect
resets the step list to empty. -/
theorem C6_ai_reasoning_panel :
    (∀ (t : EmergencyKind) (x y : Int), (aiSteps t x y).length = 11) ∧
    (∀ rand : Nat → Rat, (∀ i, 0 ≤ rand i) →
        ∀ i j : Nat, i < j → stepDelay rand i < stepDelay rand j) ∧
    (∀ (t : EmergencyKind) (x y : Int) (st : PanelState),
        runSteps (aiSteps t x y) 11 (panelEffectInit true (some t) (some (x, y)) st)
          = PanelState.mk (aiSteps t x y) false) ∧
    (∀ (t : EmergencyKind) (x y : Int) (st : PanelState) (k : Nat), k < 11 →
        runSteps (aiSteps t x y) k (panelEffectInit true (some t) (some (x, y)) st)
          = PanelState.mk ((aiSteps t x y).take k) true) ∧
    (∀ (active : Bool) (ty : Option EmergencyKind) (loc : Option (Int × Int))
        (st : PanelState),
        ¬(active = true ∧ ty.isSome ∧ loc.isSome) →
        panelEffectInit active ty loc st = { st with reasoningSteps := [] }) := by
  have hlen : ∀ (t : EmergencyKind) (x y : Int), (aiSteps t x y).length = 11 :=
    fun t x y => rfl
  refine ⟨hlen, ?_, ?_, ?_, ?_⟩
  · intro rand hrand
    have hsucc : ∀ i : Nat, stepDelay rand i < stepDelay rand (i + 1) := by
      intro i
      have h0 : (0 : Rat) ≤ rand i * 1000 := by
        have := hrand i
        positivity
      simp only [stepDelay]
      linarith
    intro i j hij
    exact strictMono_nat_of_lt_succ hsucc hij
  · intro t x y st
    have h := runSteps_spec (aiSteps t x y) (by rw [hlen]; norm_num) 11 (by rw [hlen])
    rw [show panelEffectInit true (some t) (some (x, y)) st = PanelState.mk [] true from rfl,
      h, if_pos (hlen t x y).symm, List.take_of_length_le (by rw [hlen])]
  · intro t x y st k hk
    have h := runSteps_spec (aiSteps t x y) (by rw [hlen]; norm_num) k (by rw [hlen]; omega)
    rw [show panelEffectInit true (some t) (some (x, y)) st = PanelState.mk [] true from rfl,
      h, if_neg (by rw [hlen]; omega)]
  · intro active ty loc st h
    cases active <;> cases ty <;> cases loc <;> first
      | rfl
      | exact absurd ⟨rfl, rfl, rfl⟩ h

/-- Claim C6 witness: for a fire at (3, 5), four callbacks leave the
four-step prefix with `isThinking` still true; two concrete delays are in
order; and a deactivation resets the list. -/
theorem C6_ai_reasoning_panel_witness :
    runSteps (aiSteps EmergencyKind.fire 3 5) 4
        (panelEffectInit true (some EmergencyKind.fire) (some (3, 5))
          (PanelState.mk ["stale"] false))
      = PanelState.mk ((aiSteps EmergencyKind.fire 3 5).take 4) true ∧
    stepDelay (fun _ => 0) 0 < stepDelay (fun _ => 0) 1 ∧
    panelEffectInit false none none (PanelState.mk ["stale"] true)
      = PanelState.mk [] true :=
  ⟨C6_ai_reasoning_panel.2.2.2.1 EmergencyKind.fire 3 5 (PanelState.mk ["stale"] false) 4
      (by norm_num),
   C6_ai_reasoning_panel.2.1 (fun _ => 0) (fun _ => le_refl 0) 0 1 (by norm_num),
   C6_ai_reasoning_panel.2.2.2.2 false none none (PanelState.mk ["stale"] true)
      (by simp)⟩

/-! ## C7: `handleEmergencyTrigger` and its 15-second timer

The mock dashboard page (`src/unnamed/part_001`): triggering an emergency
activates it, records type and location, starts the simulation, and
schedules a single `setTimeout(..., 15000)` whose callback prepends one
incident report with fixed mock values and resets the whole emergency
state. -/

/-- An entry of `incidentReports`. -/
structure IncidentRecord : Type where
  id : Nat
  type : EmergencyKind
  location : String
  dispatchTime : String
  arrivalTime : String
  timeSaved : String
  routeCleared : List String
  deriving DecidableEq, Repr

/-- The `Home` page state touched by the trigger flow. -/
structure HomeState : Type where
  activeEmergency : Bool
  emergencyType : Option EmergencyKind
  emergencyLocation : Option (Int × Int)
  incidentReports : List IncidentRecord
  simulationTime : Nat
  isSimulationRunning : Bool
  deriving DecidableEq, Repr

/-- The interpolated location string `${x}th and ${y}th Street`. -/
def locationText (x y : Int) : String :=
  toString x ++ "th and " ++ toString y ++ "th Street"

/-- The synchronous body of `handleEmergencyTrigger`, paired with the
delay (ms) of the single timer it schedules. -/
def handleEmergencyTrigger (t : EmergencyKind) (x y : Int) (st : HomeState) :
    HomeState × Nat :=
  ({ st with activeEmergency := true, emergencyType := some t,
             emergencyLocation := some (x, y), isSimulationRunning := true }, 15000)

/-- The timer's callback, applied to the state current when it fires.
`now` models `Date.now()` and `dispatchTime` models
`new Date().toLocaleTimeString()`. -/
def emergencyTimerFire (t : EmergencyKind) (x y : Int) (now : Nat)
    (dispatchTime : String) (st : HomeState) : HomeState :=
  { st with
    incidentReports :=
      IncidentRecord.mk now t (locationText x y) dispatchTime
        "3 minutes 24 seconds" "47%" ["Market St", "Pine St"] :: st.incidentReports,
    activeEmergency := false,
    emergencyType := none,
    emergencyLocation := none,
    isSimulationRunning := false,
    simulationTime := 0 }

/-- Claim C7: triggering schedules exactly one 15000 ms timer (and
activates the emergency); whatever the state has become when it fires,
the callback prepends exactly one report carrying the triggering type,
the `{x}th and {y}th Street` location and the fixed mock arrival
time / time saved / cleared route, and simultaneously resets the whole
emergency state: active false, type and location null, simulation
stopped, simulation time 0. -/
theorem C7_emergency_trigger :
    (∀ (t : EmergencyKind) (x y : Int) (st : HomeState),
        (handleEmergencyTrigger t x y st).2 = 15000 ∧
        (handleEmergencyTrigger t x y st).1
          = { st with activeEmergency := true, emergencyType := some t,
                      emergencyLocation := some (x, y), isSimulationRunning := true }) ∧
    (∀ (t : EmergencyKind) (x y : Int) (now : Nat) (dispatchTime : String)
        (st : HomeState),
        emergencyTimerFire t x y now dispatchTime st
          = { activeEmergency := false, emergencyType := none,
              emergencyLocation := none,
              incidentReports :=
                IncidentRecord.mk now t (locationText x y) dispatchTime
                  "3 minutes 24 seconds" "47%" ["Market St", "Pine St"]
                  :: st.incidentReports,
              simulationTime := 0, isSimulationRunning := false } ∧
        (emergencyTimerFire t x y now dispatchTime st).incidentReports.length
          = st.incidentReports.length + 1) :=
  ⟨fun _ _ _ _ => ⟨rfl, rfl⟩, fun _ _ _ _ _ _ => ⟨rfl, rfl⟩⟩

/-! ## C8: the `CityMap` animation step keeps vehicles on the grid

`updateVehicles` in `city-map.tsx` moves each vehicle by its speed along
its direction, possibly picks a random new direction at an intersection
(the position update uses the old direction), then wraps each coordinate
with the four sequential tests `newX < 0 ↦ width - 1`,
`newX >= width ↦ 0`, `newY < 0 ↦ height - 1`, `newY >= height ↦ 0`.
`gridSize` is the state `{ width: 10, height: 10 }`, never updated. -/

/-- A movement direction. -/
inductive Direction : Type
  | up : Direction
  | down : Direction
  | left : Direction
  | right : Direction
  deriving DecidableEq, Repr

/-- The vehicle fields the animation step touches. -/
structure SimVehicle : Type where
  x : Rat
  y : Rat
  speed : Rat
  direction : Direction
  deriving DecidableEq, Repr

/-- The grid dimensions. -/
structure GridSize : Type where
  width : Rat
  height : Rat
  deriving DecidableEq, Repr

/-- The component's constant grid size. -/
def initialGridSize : GridSize := GridSize.mk 10 10

/-- One animation step for one vehicle.  `turn` is the (random) direction
chosen if the vehicle is at an intersection and the 10% draw hits; it
only affects the stored direction, not this step's position update. -/
def moveVehicle (grid : GridSize) (turn : Option Direction) (v : SimVehicle) :
    SimVehicle :=
  let newX :=
    match v.direction with
    | Direction.left => v.x - v.speed
    | Direction.right => v.x + v.speed
    | _ => v.x
  let newY :=
    match v.direction with
    | Direction.up => v.y - v.speed
    | Direction.down => v.y + v.speed
    | _ => v.y
  let newDirection := turn.getD v.direction
  let newX := if newX < 0 then grid.width - 1 else newX
  let newX := if newX ≥ grid.width then 0 else newX
  let newY := if newY < 0 then grid.height - 1 else newY
  let newY := if newY ≥ grid.height then 0 else newY
  { v with x := newX, y := newY, direction := newDirection }

/-- The full `setVehicles` update: every vehicle moves, with its own
random turn draw. -/
def updateVehicles (grid : GridSize) (turns : SimVehicle → Option Direction)
    (vs : List SimVehicle) : List SimVehicle :=
  vs.map (fun v => moveVehicle grid (turns v) v)

lemma moveVehicle_mem_grid (grid : GridSize) (turn : Option Direction)
    (v : SimVehicle) (hw : 1 ≤ grid.width) (hh : 1 ≤ grid.height)
    (hs0 : 0 < v.speed) (hs1 : v.speed < 1)
    (hx0 : 0 ≤ v.x) (hx1 : v.x < grid.width)
    (hy0 : 0 ≤ v.y) (hy1 : v.y < grid.height) :
    0 ≤ (moveVehicle grid turn v).x ∧ (moveVehicle grid turn v).x < grid.width ∧
    0 ≤ (moveVehicle grid turn v).y ∧ (moveVehicle grid turn v).y < grid.height := by
  rcases v with ⟨x, y, speed, dir⟩
  simp only at hs0 hs1 hx0 hx1 hy0 hy1
  cases dir <;>
    dsimp only [moveVehicle] <;>
    split_ifs <;>
    exact ⟨by linarith, by linarith, by linarith, by linarith⟩

/-- Claim C8: if every vehicle's speed lies in `(0, 1)` and its position
lies in `[0, width) × [0, height)` before an animation step (for the
component's positive grid dimensions), then after the movement and
wrap-around rules every updated position again lies in
`[0, width) × [0, height)`; the component's grid is `10 × 10`. -/
theorem C8_updateVehicles_in_grid :
    initialGridSize = GridSize.mk 10 10 ∧
    (∀ (grid : GridSize) (turns : SimVehicle → Option Direction)
        (vs : List SimVehicle), 1 ≤ grid.width → 1 ≤ grid.height →
        (∀ v ∈ vs, 0 < v.speed ∧ v.speed < 1 ∧
          0 ≤ v.x ∧ v.x < grid.width ∧ 0 ≤ v.y ∧ v.y < grid.height) →
        ∀ w ∈ updateVehicles grid turns vs,
          0 ≤ w.x ∧ w.x < grid.width ∧ 0 ≤ w.y ∧ w.y < grid.height) := by
  refine ⟨rfl, ?_⟩
  intro grid turns vs hw hh hvs w hw'
  simp only [updateVehicles, List.mem_map] at hw'
  obtain ⟨v, hv, rfl⟩ := hw'
  obtain ⟨h1, h2, h3, h4, h5, h6⟩ := hvs v hv
  exact moveVehicle_mem_grid grid (turns v) v hw hh h1 h2 h3 h4 h5 h6

/-- Claim C8 witness: a concrete vehicle about to run off the left edge
of the 10 × 10 grid wraps to the right side and stays on the grid. -/
theorem C8_updateVehicles_in_grid_witness :
    (1 : Rat) ≤ initialGridSize.width ∧
    (∀ w ∈ updateVehicles initialGridSize (fun _ => none)
        [SimVehicle.mk 0 2 (1/2) Direction.left],
      0 ≤ w.x ∧ w.x < initialGridSize.width ∧
      0 ≤ w.y ∧ w.y < initialGridSize.height) :=
  ⟨by norm_num [initialGridSize],
   C8_updateVehicles_in_grid.2 initialGridSize (fun _ => none)
    [SimVehicle.mk 0 2 (1/2) Direction.left]
    (by norm_num [initialGridSize]) (by norm_num [initialGridSize])
    (by
      intro v hv
      simp only [List.mem_singleton] at hv
      subst hv
      norm_num [initialGridSize])⟩

/-! ## C9: `fetchColorMatchExpr` (`src/unnamed/part_004`)

The function selects `osmid, viz_color` from `road_segments`, returns
`null` on a query error, and otherwise builds a JavaScript `Map` keyed by
osmid — `if (!colorByOsm.has(osmid))` makes the first row bearing each
osmid win, and `Map` iteration follows insertion order — then emits
`["match", ["id"], osmid₁, hex₁, …, "#808080"]`.  The insertion-ordered
`Map` is modelled as an association list that appends a pair only when
the key is new. -/

/-- A row of the `osmid, viz_color` selection. -/
structure SegRow : Type where
  osmid : Int
  viz_color : Option String
  deriving DecidableEq, Repr

/-- The sequential hex assignment: start from `#808080` and overwrite for
`lime` / `orange` / `red`. -/
def colorHexOf (viz : Option String) : String :=
  let hex := "#808080"
  let hex := if viz = some "lime" then "#00FF00" else hex
  let hex := if viz = some "orange" then "#FFA500" else hex
  let hex := if viz = some "red" then "#FF0000" else hex
  hex

/-- The test `colorByOsm.has(o)`. -/
def hasKey (m : List (Int × String)) (o : Int) : Bool :=
  m.any (fun p => p.1 = o)

/-- The access `colorByOsm.get(o)`: the value of the first pair with key `o`. -/
def lookupKey (o : Int) : List (Int × String) → Option String
  | [] => none
  | p :: rest => if p.1 = o then some p.2 else lookupKey o rest

/-- The guarded insertion `if (!colorByOsm.has(osmid)) colorByOsm.set(osmid, hex)`: a JavaScript
`Map` appends a new key at the end of its insertion order. -/
def insertIfNew (m : List (Int × String)) (o : Int) (h : String) :
    List (Int × String) :=
  if hasKey m o then m else m ++ [(o, h)]

/-- The `data.forEach` loop building the de-duplicated color map. -/
def colorByOsm (rows : List SegRow) : List (Int × String) :=
  rows.foldl (fun m r => insertIfNew m r.osmid (colorHexOf r.viz_color)) []

/-- A token of the produced mapbox expression array. -/
inductive MatchTok : Type
  | lit : String → MatchTok
  | idRef : MatchTok
  | osm : Int → MatchTok
  deriving DecidableEq, Repr

/-- The emitted expression
`["match", ["id"], osmid₁, hex₁, …, "#808080"]`. -/
def matchTokens (rows : List SegRow) : List MatchTok :=
  [MatchTok.lit "match", MatchTok.idRef]
    ++ (colorByOsm rows).flatMap (fun p => [MatchTok.osm p.1, MatchTok.lit p.2])
    ++ [MatchTok.lit "#808080"]

/-- Function `fetchColorMatchExpr`: `null` exactly on a query error, otherwise the
expression built from the de-duplicated map. -/
def fetchColorMatchExpr (res : Except Unit (List SegRow)) : Option (List MatchTok) :=
  match res with
  | Except.error _ => none
  | Except.ok rows => some (matchTokens rows)

/-- The first row of the query result bearing osmid `o`. -/
def firstRowWith (o : Int) : List SegRow → Option SegRow
  | [] => none
  | r :: rest => if r.osmid = o then some r else firstRowWith o rest

/-- The accumulator step of the `forEach` loop. -/
def colorStep (m : List (Int × String)) (r : SegRow) : List (Int × String) :=
  insertIfNew m r.osmid (colorHexOf r.viz_color)

lemma colorByOsm_eq_foldl (rows : List SegRow) :
    colorByOsm rows = rows.foldl colorStep [] := rfl

lemma hasKey_iff (m : List (Int × String)) (o : Int) :
    hasKey m o = true ↔ o ∈ m.map Prod.fst := by
  simp [hasKey, List.any_eq_true, List.mem_map]

lemma keys_insertIfNew (m : List (Int × String)) (o' : Int) (h : String) (o : Int) :
    o ∈ (insertIfNew m o' h).map Prod.fst ↔ o ∈ m.map Prod.fst ∨ o = o' := by
  unfold insertIfNew
  by_cases hk : hasKey m o'
  · rw [if_pos hk]
    constructor
    · exact fun hm => Or.inl hm
    · rintro (hm | rfl)
      · exact hm
      · exact (hasKey_iff m o).mp hk
  · rw [if_neg hk]
    simp [List.mem_map]

lemma nodup_keys_insertIfNew (m : List (Int × String)) (o' : Int) (h : String)
    (hm : (m.map Prod.fst).Nodup) : ((insertIfNew m o' h).map Prod.fst).Nodup := by
  unfold insertIfNew
  by_cases hk : hasKey m o'
  · rwa [if_pos hk]
  · rw [if_neg hk]
    rw [List.map_append]
    simp only [List.map_cons, List.map_nil]
    rw [List.nodup_append]
    refine ⟨hm, List.nodup_singleton _, ?_⟩
    intro a ha hb
    simp only [List.mem_singleton] at hb
    rw [hb] at ha
    exact hk ((hasKey_iff m o').mpr ha)

lemma lookupKey_append_some (o : Int) (m l : List (Int × String)) (v : String)
    (h : lookupKey o m = some v) : lookupKey o (m ++ l) = some v := by
  induction m with
  | nil => cases h
  | cons p rest ih =>
    by_cases hp : p.1 = o
    · simp only [lookupKey, if_pos hp] at h
      simp only [List.cons_append, lookupKey, if_pos hp]
      exact h
    · simp only [lookupKey, if_neg hp] at h
      simp only [List.cons_append, lookupKey, if_neg hp]
      exact ih h

lemma lookupKey_append_none (o : Int) (m l : List (Int × String))
    (h : lookupKey o m = none) : lookupKey o (m ++ l) = lookupKey o l := by
  induction m with
  | nil => rfl
  | cons p rest ih =>
    by_cases hp : p.1 = o
    · simp only [lookupKey, if_pos hp] at h
      cases h
    · simp only [lookupKey, if_neg hp] at h
      simp only [List.cons_append, lookupKey, if_neg hp]
      exact ih h

lemma lookupKey_isSome_iff (o : Int) (m : List (Int × String)) :
    (lookupKey o m).isSome ↔ o ∈ m.map Prod.fst := by
  induction m with
  | nil => simp [lookupKey]
  | cons p rest ih =>
    by_cases hp : p.1 = o
    · simp [lookupKey, hp]
    · simp only [lookupKey, if_neg hp, List.map_cons, List.mem_cons, ih]
      constructor
      · exact fun h => Or.inr h
      · rintro (h | h)
        · exact absurd h.symm hp
        · exact h

lemma hasKey_false_iff (m : List (Int × String)) (o : Int) :
    hasKey m o = false ↔ o ∉ m.map Prod.fst := by
  rw [← hasKey_iff]
  cases h : hasKey m o <;> simp

lemma foldl_keys_mem (rows : List SegRow) :
    ∀ (m : List (Int × String)) (o : Int),
      o ∈ (rows.foldl colorStep m).map Prod.fst ↔
        o ∈ m.map Prod.fst ∨ ∃ r ∈ rows, r.osmid = o := by
  induction rows with
  | nil =>
    intro m o
    simp
  | cons r rs ih =>
    intro m o
    rw [List.foldl_cons, ih (colorStep m r) o,
      show colorStep m r = insertIfNew m r.osmid (colorHexOf r.viz_color) from rfl,
      keys_insertIfNew]
    constructor
    · rintro ((hm | ho) | ⟨rr, hrr, hro⟩)
      · exact Or.inl hm
      · exact Or.inr ⟨r, List.mem_cons_self r rs, ho.symm⟩
      · exact Or.inr ⟨rr, List.mem_cons_of_mem r hrr, hro⟩
    · rintro (hm | ⟨rr, hrr, hro⟩)
      · exact Or.inl (Or.inl hm)
      · rcases List.mem_cons.mp hrr with rfl | hrr'
        · exact Or.inl (Or.inr hro.symm)
        · exact Or.inr ⟨rr, hrr', hro⟩

lemma foldl_keys_nodup (rows : List SegRow) :
    ∀ m : List (Int × String), (m.map Prod.fst).Nodup →
      ((rows.foldl colorStep m).map Prod.fst).Nodup := by
  induction rows with
  | nil => exact fun m hm => hm
  | cons r rs ih =>
    intro m hm
    exact ih _ (nodup_keys_insertIfNew m r.osmid _ hm)

lemma hasKey_insertIfNew_of (m : List (Int × String)) (o' : Int) (h : String)
    (o : Int) (hk : hasKey m o = true) : hasKey (insertIfNew m o' h) o = true := by
  rw [hasKey_iff] at hk ⊢
  rw [keys_insertIfNew]
  exact Or.inl hk

lemma lookupKey_insertIfNew_of (m : List (Int × String)) (o' : Int) (h : String)
    (o : Int) (hk : hasKey m o = true) :
    lookupKey o (insertIfNew m o' h) = lookupKey o m := by
  unfold insertIfNew
  by_cases hki : hasKey m o'
  · rw [if_pos hki]
  · rw [if_neg hki]
    have hs : (lookupKey o m).isSome :=
      (lookupKey_isSome_iff o m).mpr ((hasKey_iff m o).mp hk)
    obtain ⟨v, hv⟩ := Option.isSome_iff_exists.mp hs
    rw [hv, lookupKey_append_some o m _ v hv]

lemma foldl_lookup_stable (rows : List SegRow) :
    ∀ (m : List (Int × String)) (o : Int), hasKey m o = true →
      lookupKey o (rows.foldl colorStep m) = lookupKey o m := by
  induction rows with
  | nil =>
    intro m o _
    rfl
  | cons r rs ih =>
    intro m o hk
    rw [List.foldl_cons,
      show colorStep m r = insertIfNew m r.osmid (colorHexOf r.viz_color) from rfl,
      ih _ o (hasKey_insertIfNew_of m r.osmid _ o hk),
      lookupKey_insertIfNew_of m r.osmid _ o hk]

lemma foldl_lookup_first (rows : List SegRow) :
    ∀ (m : List (Int × String)) (o : Int) (r : SegRow),
      firstRowWith o rows = some r → hasKey m o = false →
      lookupKey o (rows.foldl colorStep m) = some (colorHexOf r.viz_color) := by
  induction rows with
  | nil =>
    intro m o r h _
    cases h
  | cons rr rs ih =>
    intro m o r h hk
    rw [List.foldl_cons]
    by_cases ho : rr.osmid = o
    · rw [firstRowWith, if_pos ho, Option.some_inj] at h
      subst h
      have hknew : hasKey m rr.osmid = false := by
        rw [ho]
        exact hk
      have hins : colorStep m rr = m ++ [(rr.osmid, colorHexOf rr.viz_color)] := by
        unfold colorStep insertIfNew
        rw [if_neg (by rw [hknew]; exact Bool.false_ne_true)]
      have hk2 : hasKey (colorStep m rr) o = true := by
        rw [hasKey_iff, hins, List.map_append]
        simp [ho]
      rw [foldl_lookup_stable rs _ o hk2, hins]
      have hnone : lookupKey o m = none := by
        cases hcase : lookupKey o m with
        | none => rfl
        | some v =>
          exfalso
          have := (lookupKey_isSome_iff o m).mp (by rw [hcase]; rfl)
          rw [hasKey_false_iff] at hk
          exact hk this
      rw [lookupKey_append_none o m _ hnone]
      simp [lookupKey, ho]
    · rw [firstRowWith, if_neg ho] at h
      refine ih _ o r h ?_
      rw [show colorStep m rr = insertIfNew m rr.osmid (colorHexOf rr.viz_color) from rfl,
        hasKey_false_iff, keys_insertIfNew]
      rw [hasKey_false_iff] at hk
      rintro (hm | rfl)
      · exact hk hm
      · exact ho rfl

lemma count_osm_flat (pairs : List (Int × String)) (o : Int) :
    (pairs.flatMap (fun p => [MatchTok.osm p.1, MatchTok.lit p.2])).count
        (MatchTok.osm o)
      = (pairs.map Prod.fst).count o := by
  induction pairs with
  | nil => rfl
  | cons p rest ih =>
    simp only [List.flatMap_cons, List.map_cons, List.count_cons, List.count_append, ih,
      List.count_nil]
    by_cases hp : p.1 = o
    · simp [hp, List.count_cons]
      omega
    · simp [hp, List.count_cons]

/-- Claim C9: `fetchColorMatchExpr` returns `null` exactly on a query
error; on success it emits `["match", ["id"], …pairs…, "#808080"]` in
which the key list is duplicate-free, a key occurs iff some queried row
bears that osmid (so each distinct osmid token appears exactly once), the
value stored for a key is the hex color of the first row bearing it
(`#00FF00`/`#FFA500`/`#FF0000` for lime/orange/red, `#808080` otherwise),
and the final entry is the single trailing `#808080` fallback. -/
theorem C9_fetchColorMatchExpr :
    (∀ e : Unit, fetchColorMatchExpr (Except.error e) = none) ∧
    (∀ rows : List SegRow,
        fetchColorMatchExpr (Except.ok rows) = some (matchTokens rows)) ∧
    (∀ rows : List SegRow, ((colorByOsm rows).map Prod.fst).Nodup) ∧
    (∀ (rows : List SegRow) (o : Int),
        o ∈ (colorByOsm rows).map Prod.fst ↔ ∃ r ∈ rows, r.osmid = o) ∧
    (∀ (rows : List SegRow) (o : Int), (∃ r ∈ rows, r.osmid = o) →
        (matchTokens rows).count (MatchTok.osm o) = 1) ∧
    (∀ (rows : List SegRow) (o : Int) (r : SegRow),
        firstRowWith o rows = some r →
        lookupKey o (colorByOsm rows) = some (colorHexOf r.viz_color)) ∧
    (∀ rows : List SegRow,
        (matchTokens rows).getLast? = some (MatchTok.lit "#808080")) := by
  have hnodup : ∀ rows : List SegRow, ((colorByOsm rows).map Prod.fst).Nodup :=
    fun rows => foldl_keys_nodup rows [] (by simp)
  have hmem : ∀ (rows : List SegRow) (o : Int),
      o ∈ (colorByOsm rows).map Prod.fst ↔ ∃ r ∈ rows, r.osmid = o := by
    intro rows o
    rw [colorByOsm_eq_foldl, foldl_keys_mem rows [] o]
    simp
  refine ⟨fun _ => rfl, fun _ => rfl, hnodup, hmem, ?_, ?_, ?_⟩
  · intro rows o hex
    have hcount1 : ((colorByOsm rows).map Prod.fst).count o = 1 :=
      List.count_eq_one_of_mem (hnodup rows) ((hmem rows o).mpr hex)
    unfold matchTokens
    rw [List.count_append, List.count_append, count_osm_flat, hcount1]
    rfl
  · intro rows o r h
    rw [colorByOsm_eq_foldl]
    exact foldl_lookup_first rows [] o r h rfl
  · intro rows
    unfold matchTokens
    rw [List.getLast?_concat]

/-- Claim C9 witness: for the result rows
`[(5, lime), (5, red), (7, null)]`, the osmid `5` token appears exactly
once in the emitted expression, and its stored hex is that of the first
`5`-row, i.e. lime's `#00FF00`. -/
theorem C9_fetchColorMatchExpr_witness :
    (matchTokens [SegRow.mk 5 (some "lime"), SegRow.mk 5 (some "red"),
        SegRow.mk 7 none]).count (MatchTok.osm 5) = 1 ∧
    lookupKey 5 (colorByOsm [SegRow.mk 5 (some "lime"), SegRow.mk 5 (some "red"),
        SegRow.mk 7 none]) = some (colorHexOf (some "lime")) ∧
    colorHexOf (some "lime") = "#00FF00" :=
  ⟨C9_fetchColorMatchExpr.2.2.2.2.1
      [SegRow.mk 5 (some "lime"), SegRow.mk 5 (some "red"), SegRow.mk 7 none] 5
      ⟨SegRow.mk 5 (some "lime"), by decide, rfl⟩,
   C9_fetchColorMatchExpr.2.2.2.2.2.1
      [SegRow.mk 5 (some "lime"), SegRow.mk 5 (some "red"), SegRow.mk 7 none] 5
      (SegRow.mk 5 (some "lime")) (by decide),
   by decide⟩

end Cortana
